import Mathlib

/-!
# Verification of the triage workflow engine

Shallow embedding of the triage workflow engine of the
`NVIDIA-triage-alerting-poc` repository: the LangGraph node graph
(`app/agents/graph.py`), the seven stage nodes (`app/agents/nodes/*.py`),
the guardrail gate (`app/agents/guardrails.py`), the session state and its
merge rules (`app/agents/state.py`), and the service layer
(`app/services/triage.py`, `app/api/routes/alerts.py`).

Modelling conventions:
* Python `float` is modelled as `ℚ`.  Every numeric literal the code
  manipulates (0.0, 0.5, 0.7, 0.8, parsed decimal strings) is an exact
  decimal, so no property below depends on binary rounding.
* The Model Gateway (LLM) is an opaque collaborator: each stage node takes
  the outcome of its `llm.invoke` call as an explicit argument of type
  `Except String …` — `.error e` models the call raising an exception with
  text `e`, which the node's `try/except` handler observes.
* Wall-clock timestamps (`ts` fields of events, `datetime.utcnow()`) and
  the PII-redacted copies of strings carried in events are not modelled;
  no property below depends on them.  Metrics tracking (`MetricsTracker`)
  only prints and records to an external registry and never alters the
  values a node returns, so it is not modelled either.
-/

/-- Single quote character, written via its code point. -/
def squote : String := String.singleton (Char.ofNat 39)

/-! ## Lists of characters: substring test (Python `in` on `str`) -/

/-- `startsWithList a b` : `a` is an initial segment of `b`. -/
def startsWithList : List Char → List Char → Bool
  | [], _ => true
  | _ :: _, [] => false
  | a :: as, b :: bs => a == b && startsWithList as bs

/-- `listContainsSub n h` : `n` occurs contiguously inside `h`
(Python `n in h` for strings, on the character level). -/
def listContainsSub (n : List Char) : List Char → Bool
  | [] => startsWithList n []
  | h@(_ :: t) => startsWithList n h || listContainsSub n t

/-- Python `needle in hay` for strings. -/
def containsSub (needle hay : String) : Bool :=
  listContainsSub needle.data hay.data

/-- Python `str.lower()` (ASCII-faithful). -/
def pyLower (s : String) : String := ⟨s.data.map Char.toLower⟩

/-- Python `str.upper()` (ASCII-faithful). -/
def pyUpper (s : String) : String := ⟨s.data.map Char.toUpper⟩

/-- Python `s[:n]` slicing on strings (by code points). -/
def pySlice (n : ℕ) (s : String) : String := ⟨s.data.take n⟩

/-- Python `a or b` for strings: `b` when `a` is empty, else `a`. -/
def pyOr (a b : String) : String := if a = "" then b else a

/-- Python `str(bool)`. -/
def pyBool : Bool → String
  | true => "True"
  | false => "False"

/-! ## Data model (`app/agents/state.py`, `app/models/alert.py`) -/

/-- The fields of `AlertPayload` the workflow core reads.  The remaining
fields (`detector`, `metric_snapshot`, `context`) are only interpolated
into prompt strings, which are consumed by the opaque Model Gateway. -/
structure Alert where
  id : String
  service : String
  severity : String
  alert_type : String
  timestamp : String
  deriving DecidableEq, Repr

/-- A structured tool-call request issued by the model.  Only the `name`
is inspected by the engine; arguments flow opaquely to the tool. -/
structure ToolCall where
  name : String
  deriving DecidableEq, Repr

/-- LangChain message history entries.  Only `AIMessage` carries a
`tool_calls` attribute (`hasattr(msg, "tool_calls")`). -/
inductive Message where
  | human (content : String)
  | system (content : String)
  | ai (content : String) (tool_calls : List ToolCall)
  | tool (content : String)
  deriving DecidableEq, Repr

/-- First tool call of a message, when the message has a `tool_calls`
attribute and it is non-empty (`hasattr(msg, "tool_calls") and
msg.tool_calls`). -/
def Message.firstToolName : Message → Option String
  | .ai _ (tc :: _) => some tc.name
  | _ => none

/-- `True` iff the message carries at least one tool-call request. -/
def Message.hasToolCalls : Message → Bool
  | .ai _ (_ :: _) => true
  | _ => false

/-- One mock incident record built by `incident_rag`. -/
structure Incident where
  id : String
  service : String
  type : String
  resolution : String
  similarity : ℚ
  deriving DecidableEq, Repr

/-- A trace event (`create_event` in `state.py`).  The `ts` timestamp and
free-form extras not read by any property (`service`, `sanitized_action`,
`guardrail_blocked`, `incidents_found`, `top_similarity`, `status`,
`action`, `confidence`) are omitted. -/
structure Event where
  node : String
  summary : String
  error : Option String := none
  llm_reasoning : Option String := none
  guardrail_reason : Option String := none
  tool_calls : List ToolCall := []
  deriving DecidableEq, Repr

/-- `AlertTriageState`: the session state threaded through one run.  All
fields are initialised by `run_triage_workflow`, so the `.get(..., d)`
defaults in the nodes are never exercised. -/
structure TriageState where
  triage_id : String
  alert : Alert
  messages : List Message
  logs_summary : String
  metrics_summary : String
  anomalies : List String
  similar_incidents : List Incident
  hypothesis : String
  recommended_action : String
  confidence : ℚ
  requires_approval : Bool
  events : List Event
  deriving DecidableEq, Repr

/-- A partial update returned by one stage node.  `none` / `[]` model a
key being absent from the returned dict. -/
structure StateUpdate where
  logs_summary : Option String := none
  metrics_summary : Option String := none
  hypothesis : Option String := none
  recommended_action : Option String := none
  confidence : Option ℚ := none
  requires_approval : Option Bool := none
  anomalies : Option (List String) := none
  similar_incidents : Option (List Incident) := none
  messages : List Message := []
  events : List Event := []
  deriving DecidableEq, Repr

/-- Merge protocol of `AlertTriageState`: `messages` (`add_messages`) and
`events` (`operator.add`) concatenate; every other field present in the
partial update replaces the old value. -/
def mergeState (s : TriageState) (u : StateUpdate) : TriageState :=
  { s with
    logs_summary := u.logs_summary.getD s.logs_summary
    metrics_summary := u.metrics_summary.getD s.metrics_summary
    hypothesis := u.hypothesis.getD s.hypothesis
    recommended_action := u.recommended_action.getD s.recommended_action
    confidence := u.confidence.getD s.confidence
    requires_approval := u.requires_approval.getD s.requires_approval
    anomalies := u.anomalies.getD s.anomalies
    similar_incidents := u.similar_incidents.getD s.similar_incidents
    messages := s.messages ++ u.messages
    events := s.events ++ u.events }

/-! ## Guardrail gate (`app/agents/guardrails.py`) -/

namespace TriageGuardrails

/-- `TriageGuardrails.HIGH_RISK_ACTIONS`. -/
def HIGH_RISK_ACTIONS : List String :=
  ["delete", "terminate", "shutdown", "drop_database", "force_restart",
   "scale_to_zero"]

/-- `TriageGuardrails.CRITICAL_SERVICES`. -/
def CRITICAL_SERVICES : List String :=
  ["payment-service", "auth-service", "database-primary", "kafka-broker"]

/-- Result dict of `TriageGuardrails.validate_action`. -/
structure GuardrailResult where
  allowed : Bool
  requires_approval : Bool
  reason : String
  deriving DecidableEq, Repr

/-- Python round-half-to-even on a rational, used by the `:.0%` format.
Computed on the numerator/denominator directly (the denominator of a
`Rat` is positive, so `q = ediv + emod/den` with `0 ≤ emod < den`). -/
def roundHalfEven (q : ℚ) : ℤ :=
  let f : ℤ := Int.ediv q.num (Int.ofNat q.den)
  let rem : ℤ := Int.emod q.num (Int.ofNat q.den)
  if 2 * rem < Int.ofNat q.den then f
  else if 2 * rem > Int.ofNat q.den then f + 1
  else if f % 2 = 0 then f else f + 1

/-- Python `f"{c:.0%}"`.  (`c * 100` is written `mkRat (100 * num) den`,
the same rational, to stay kernel-computable.) -/
def fmtPercent (c : ℚ) : String :=
  toString (roundHalfEven (mkRat (100 * c.num) c.den)) ++ "%"

/-- `TriageGuardrails.validate_action(action, service, confidence)`:
layer-1 deterministic rules, checked in source order. -/
def validate_action (action service : String) (confidence : ℚ) :
    GuardrailResult :=
  let action_lower := pyLower action
  match HIGH_RISK_ACTIONS.find? (fun k => containsSub k action_lower) with
  | some risk_action =>
      { allowed := false
        requires_approval := true
        reason := "High-risk action " ++ squote ++ risk_action ++ squote ++
          " requires human approval" }
  | none =>
      if service ∈ CRITICAL_SERVICES then
        { allowed := false
          requires_approval := true
          reason := "Critical service " ++ squote ++ service ++ squote ++
            " requires human approval for any action" }
      else if confidence < mkRat 7 10 then
        { allowed := false
          requires_approval := true
          reason := "Confidence " ++ fmtPercent confidence ++
            " below auto-approval threshold (70%)" }
      else
        { allowed := true
          requires_approval := false
          reason := "Action passed all guardrail checks" }

end TriageGuardrails

/-! ## The `validate_action` stage node
(`app/agents/nodes/validate_action.py`) -/

/-- The model gateway response of a tool-free node: the `content` string
of the returned message; `.error e` models `llm.invoke` (or `get_llm`)
raising. -/
abbrev LLMTextOutcome := Except String String

/-- `validate_action(state)`.  Returns the partial update together with a
flag recording whether the Model Gateway (layer 2) was consulted: the
source reaches `get_llm()` / `llm.invoke` only after layer 1 allows the
action. -/
def validate_action_run (s : TriageState) (llm : LLMTextOutcome) :
    StateUpdate × Bool :=
  let action := s.recommended_action
  let service := s.alert.service
  let severity := s.alert.severity
  let confidence := s.confidence
  let guardrail_result :=
    TriageGuardrails.validate_action action service confidence
  if !guardrail_result.allowed then
    ({ requires_approval := some true
       events := [{ node := "validate_action"
                    summary := "🛡️ Guardrails triggered: " ++
                      guardrail_result.reason
                    guardrail_reason := some guardrail_result.reason }] },
     false)
  else
    match llm with
    | .ok content =>
        let llm_requires_approval := containsSub "YES" (pyUpper content)
        let requires_approval :=
          llm_requires_approval || (["critical", "high"] : List String).contains severity
        ({ requires_approval := some requires_approval
           messages := [.ai content []]
           events := [{ node := "validate_action"
                        summary := "Validation complete. Requires approval: " ++
                          pyBool requires_approval
                        llm_reasoning := some content }] },
         true)
    | .error e =>
        let llm_reasoning := "Validation failed: " ++ e
        ({ requires_approval := some true
           messages := [.human llm_reasoning]
           events := [{ node := "validate_action"
                        summary := "Validation complete. Requires approval: " ++
                          pyBool true
                        llm_reasoning := some llm_reasoning }] },
         true)

/-! ## Tool-enabled stage nodes
(`gather_context.py`, `analyze_logs.py`, `analyze_metrics.py`) -/

/-- A model gateway response for a tool-bound node: free text plus
zero-or-more structured tool-call requests. -/
structure LLMResponse where
  content : String
  tool_calls : List ToolCall
  deriving DecidableEq, Repr

/-- The outcome of a tool-bound `llm.invoke` call. -/
abbrev LLMToolOutcome := Except String LLMResponse

/-- Python `repr` of a list of strings,
`f"{[tc['name'] for tc in response.tool_calls]}"`. -/
def pyStrListRepr (names : List String) : String :=
  "[" ++ String.intercalate ", " (names.map (fun n => squote ++ n ++ squote)) ++ "]"

/-- `gather_context(state)`.  Binds context-gathering tools; on a
tool-calling response it returns only the message plus an event, on a
plain response the message plus a summary event, and on an exception an
error event alone. -/
def gather_context_run (s : TriageState) (llm : LLMToolOutcome) : StateUpdate :=
  match llm with
  | .ok r =>
      match r.tool_calls with
      | _ :: _ =>
          { messages := [.ai r.content r.tool_calls]
            events := [{ node := "gather_context"
                         summary := "Gathering context via tools: " ++
                           pyStrListRepr (r.tool_calls.map (·.name))
                         tool_calls := r.tool_calls }] }
      | [] =>
          { messages := [.ai r.content []]
            events := [{ node := "gather_context"
                         summary := "Gathered context for " ++ s.alert.service ++
                           " alert at " ++ s.alert.timestamp
                         llm_reasoning := some r.content }] }
  | .error e =>
      { events := [{ node := "gather_context"
                     summary := "Failed to gather context"
                     error := some ("Context gathering failed: " ++ e) }] }

/-- `analyze_logs(state)`. -/
def analyze_logs_run (s : TriageState) (llm : LLMToolOutcome) : StateUpdate :=
  match llm with
  | .ok r =>
      match r.tool_calls with
      | [] =>
          let summary :=
            if r.content ≠ "" then pySlice 2000 r.content
            else "Log analysis completed. See trace for details."
          { logs_summary := some summary
            messages := [.ai r.content []]
            events := [{ node := "analyze_logs"
                         summary := "Completed log analysis"
                         llm_reasoning := some r.content }] }
      | tc :: _ =>
          { messages := [.ai r.content r.tool_calls]
            events := [{ node := "analyze_logs"
                         summary := "Searching logs via tool: " ++ tc.name
                         tool_calls := r.tool_calls }] }
  | .error e =>
      { logs_summary := some "Error analyzing logs"
        events := [{ node := "analyze_logs"
                     summary := "Failed to analyze logs"
                     error := some ("Log analysis failed: " ++ e) }] }

/-- `analyze_metrics(state)`. -/
def analyze_metrics_run (s : TriageState) (llm : LLMToolOutcome) : StateUpdate :=
  match llm with
  | .ok r =>
      match r.tool_calls with
      | [] =>
          let summary :=
            if r.content ≠ "" then pySlice 2000 r.content
            else "Metrics analysis completed. See trace for details."
          { metrics_summary := some summary
            messages := [.ai r.content []]
            events := [{ node := "analyze_metrics"
                         summary := "Completed metrics analysis"
                         llm_reasoning := some r.content }] }
      | tc :: _ =>
          { messages := [.ai r.content r.tool_calls]
            events := [{ node := "analyze_metrics"
                         summary := "Requesting metrics via tool: " ++ tc.name
                         tool_calls := r.tool_calls }] }
  | .error e =>
      { metrics_summary := some "Error fetching metrics"
        events := [{ node := "analyze_metrics"
                     summary := "Failed to analyze metrics"
                     error := some ("Metrics analysis failed: " ++ e) }] }

/-! ## The `incident_rag` stage node (`incident_rag.py`) -/

/-- `incident_rag(state)`: builds the two mock incidents; only the
`llm.invoke` analysis is inside the `try`, so a model failure degrades to
a fallback reasoning string while the incidents are still returned. -/
def incident_rag_run (s : TriageState) (llm : LLMTextOutcome) : StateUpdate :=
  let similar_incidents : List Incident :=
    [{ id := "INC-2025-1234", service := s.alert.service,
       type := s.alert.alert_type,
       resolution := "Scaled up replicas from 3 to 5", similarity := mkRat 87 100 },
     { id := "INC-2025-1100", service := s.alert.service,
       type := "latency_spike",
       resolution := "Applied rate limiting to upstream", similarity := mkRat 72 100 }]
  let llm_reasoning :=
    match llm with
    | .ok c => c
    | .error e => "LLM unavailable: " ++ e ++ ". Using similarity scores only."
  { similar_incidents := some similar_incidents
    events := [{ node := "incident_rag"
                 summary := "Found " ++ toString similar_incidents.length ++
                   " similar past incidents"
                 llm_reasoning := some llm_reasoning }] }

/-! ## The `plan_remediation` stage node (`plan_remediation.py`)

The node parses the model's free text with two regexes.  The embedding
below implements their `re.search` semantics (leftmost match, lazy/greedy
quantifiers, `IGNORECASE`, `DOTALL` where set) directly on character
lists. -/

/-- Python `\s` character class. -/
def isPySpace (c : Char) : Bool :=
  c = ' ' || c = '\t' || c = '\n' || c = '\r' ||
  c = Char.ofNat 11 || c = Char.ofNat 12

/-- Case-insensitive "starts with" on character lists. -/
def ciStarts (kw l : List Char) : Bool :=
  startsWithList (kw.map Char.toLower) (l.map Char.toLower)

/-- Length of the first keyword alternative matching at this position
(`(?:K1|K2)`, `IGNORECASE`).  The keyword sets used below never share a
first character, so at most one alternative matches at any position. -/
def findKwLen (kws : List String) (l : List Char) : Option ℕ :=
  kws.findSome? (fun kw => if ciStarts kw.data l then some kw.data.length else none)

/-- Drop up to and including the first `:` (`.*?:` under `DOTALL`);
`none` when no colon remains. -/
def afterColon : List Char → Option (List Char)
  | [] => none
  | c :: t => if c = ':' then some t else afterColon t

/-- The stop condition of the lazy group `(.*?)(?=\n(?:N1|N2)|$)`: the
remaining text starts with a newline followed by a `next` keyword, or the
end-of-string anchor `$` matches (at the end, or just before a final
newline). -/
def groupStop (nextKws : List String) : List Char → Bool
  | [] => true
  | c :: t =>
      if c = '\n' then
        t.isEmpty || nextKws.any (fun kw => ciStarts kw.data t)
      else false

/-- The lazy group: shortest extension whose continuation satisfies
`groupStop`. -/
def takeGroupLazy (nextKws : List String) : List Char → List Char
  | [] => []
  | c :: t =>
      if groupStop nextKws (c :: t) then [] else c :: takeGroupLazy nextKws t

/-- Python `str.strip()`. -/
def stripChars (l : List Char) : List Char :=
  ((l.dropWhile isPySpace).reverse.dropWhile isPySpace).reverse

/-- `re.search` for
`(?:kws).*?:\s*(.*?)(?=\n(?:nexts)|$)` (with `nexts`) or
`(?:kws).*?:\s*(.*)` (without), flags `IGNORECASE | DOTALL`:
scan positions left to right; at a keyword match, the lazy `.*?:` reaches
the first colon anywhere after it (dot matches newlines under `DOTALL`) —
if no colon remains, that occurrence fails and scanning continues. -/
def extract_section_core (kws : List String) (nexts : Option (List String)) :
    List Char → Option (List Char)
  | [] => none
  | l@(_ :: t) =>
      match findKwLen kws l with
      | some n =>
          (match afterColon (l.drop n) with
           | some rest =>
               let g0 := rest.dropWhile isPySpace
               some (match nexts with
                     | some nk => takeGroupLazy nk g0
                     | none => g0)
           | none => extract_section_core kws nexts t)
      | none => extract_section_core kws nexts t

/-- `extract_section(text, section_keywords, next_keywords)` of
`plan_remediation.py`: the matched group, stripped, or `None`. -/
def extract_section (text : String) (kws : List String)
    (nexts : Option (List String)) : Option String :=
  (extract_section_core kws nexts text.data).map (fun g => ⟨stripChars g⟩)

/-- One backtracking round of
`(?:Confidence).*?:\s*([0-9.]+)` (flags `IGNORECASE` only, no `DOTALL`)
after the keyword: the lazy `.*?` may not cross a newline; at each
candidate colon, `\s*` greedily eats whitespace (newlines included) and
the group takes a non-empty maximal `[0-9.]` run, else the scan continues
to the next colon on the same line. -/
def confAfterColon : List Char → Option (List Char)
  | [] => none
  | c :: t =>
      if c = '\n' then none
      else if c = ':' then
        let g := (t.dropWhile isPySpace).takeWhile (fun ch => ch.isDigit || ch = '.')
        if g.isEmpty then confAfterColon t else some g
      else confAfterColon t

/-- `re.search(r'(?:Confidence).*?:\s*([0-9.]+)', text, re.IGNORECASE)`. -/
def searchConfidence : List Char → Option (List Char)
  | [] => none
  | l@(_ :: t) =>
      if ciStarts "confidence".data l then
        match confAfterColon (l.drop 10) with
        | some g => some g
        | none => searchConfidence t
      else searchConfidence t

/-- Value of a digit string. -/
def digitsVal (l : List Char) : ℕ :=
  l.foldl (fun a c => a * 10 + (c.toNat - 48)) 0

/-- Python `float(s)` for a string drawn from `[0-9.]+`: fails (raising
`ValueError`, caught by the bare `except`) when there is more than one
dot or no digit at all. -/
def pyFloatDigits (l : List Char) : Option ℚ :=
  if l.count '.' ≤ 1 ∧ l.any Char.isDigit then
    let intPart := l.takeWhile (· ≠ '.')
    let fracPart := (l.dropWhile (· ≠ '.')).drop 1
    some (mkRat (Int.ofNat (digitsVal intPart * 10 ^ fracPart.length +
      digitsVal fracPart)) (10 ^ fracPart.length))
  else none

/-- The confidence value `plan_remediation` stores: the parsed group when
the regex matched and `float()` succeeds, else the 0.8 fallback. -/
def parsedConfidence (content : String) : ℚ :=
  match searchConfidence content.data with
  | none => 0.8
  | some g => (pyFloatDigits g).getD 0.8

/-- `plan_remediation(state)`. -/
def plan_remediation_run (s : TriageState) (llm : LLMTextOutcome) : StateUpdate :=
  match llm with
  | .ok content =>
      let hyp0 := extract_section content ["Hypothesis", "Root Cause"]
        (some ["Recommended Action", "Action", "Confidence"])
      let act0 := extract_section content ["Recommended Action", "Action"]
        (some ["Confidence"])
      let hypothesis := match hyp0 with
        | none => "Investigating Root Cause"
        | some h => if h = "" then "Investigating Root Cause" else h
      let action := match act0 with
        | none => "Manual intervention required"
        | some a => if a = "" then "Manual intervention required" else a
      let confidence := parsedConfidence content
      { hypothesis := some hypothesis
        recommended_action := some action
        confidence := some confidence
        messages := [.ai content []]
        events := [{ node := "plan_remediation"
                     summary := "Proposed: " ++ pySlice 100 action
                     llm_reasoning := some content }] }
  | .error e =>
      let llm_reasoning := "Planning failed: " ++ e
      let action := "Restart " ++ s.alert.service
      { hypothesis := some "Degraded Service"
        recommended_action := some action
        confidence := some (mkRat 1 2)
        messages := [.human llm_reasoning]
        events := [{ node := "plan_remediation"
                     summary := "Proposed: " ++ pySlice 100 action
                     llm_reasoning := some llm_reasoning }] }

/-! ## The `finalize` stage node (`finalize.py`) -/

/-- `finalize(state)`: appends one completion event; it writes no other
field (in particular, no completion timestamp reaches the state). -/
def finalize_run (s : TriageState) : StateUpdate :=
  let status := if s.requires_approval then "pending_approval" else "auto_approved"
  { events := [{ node := "finalize"
                 summary := "Triage complete for " ++ s.alert.service ++
                   ". Status: " ++ status }] }

/-! ## Graph wiring and routing (`app/agents/graph.py`) -/

/-- `should_continue(state)`: route to `"tools"` iff the most recent
message carries tool-call requests, `"next"` otherwise (also for an empty
history). -/
def should_continue (s : TriageState) : String :=
  match s.messages.getLast? with
  | none => "next"
  | some last_message => if last_message.hasToolCalls then "tools" else "next"

/-- The scan of `route_tool_output` over `reversed(messages)`: the first
message carrying tool calls whose first call names a recognized tool
decides the route; unrecognized names keep scanning; exhaustion falls
back to `"analyze_metrics"`. -/
def routeScan : List Message → String
  | [] => "analyze_metrics"
  | m :: rest =>
      match m.firstToolName with
      | none => routeScan rest
      | some tool_name =>
          if tool_name = "search_logs" then "analyze_logs"
          else if tool_name = "get_service_metrics" then "analyze_metrics"
          else routeScan rest

/-- `route_tool_output(state)`. -/
def route_tool_output (s : TriageState) : String :=
  if s.messages.isEmpty then "analyze_metrics"
  else routeScan s.messages.reverse

/-- The nodes of the compiled `triage_graph` (plus the `END` sentinel). -/
inductive Node where
  | gather_context
  | analyze_logs
  | analyze_metrics
  | tools
  | incident_rag
  | plan_remediation
  | validate_action
  | finalize
  | endNode
  deriving DecidableEq, Repr

/-- The edge map of `triage_graph`: plain edges plus the conditional
edges keyed by `should_continue` / `route_tool_output`.  `gather_context`
has only the unconditional edge `add_edge("gather_context",
"analyze_logs")`. -/
def nextNode (n : Node) (s : TriageState) : Node :=
  match n with
  | .gather_context => .analyze_logs
  | .analyze_logs =>
      if should_continue s = "tools" then .tools else .analyze_metrics
  | .analyze_metrics =>
      if should_continue s = "tools" then .tools else .incident_rag
  | .tools =>
      if route_tool_output s = "analyze_logs" then .analyze_logs
      else .analyze_metrics
  | .incident_rag => .plan_remediation
  | .plan_remediation => .validate_action
  | .validate_action => .finalize
  | .finalize => .endNode
  | .endNode => .endNode

/-- The `ToolNode`: executes every tool call of the last (tool-calling)
message through the tool registry and appends the results, in request
order, as tool messages. -/
def tool_node_run (s : TriageState) (toolFn : ToolCall → String) : StateUpdate :=
  let calls : List ToolCall :=
    match s.messages.getLast? with
    | some (.ai _ tcs) => tcs
    | _ => []
  { messages := calls.map (fun tc => .tool (toolFn tc)) }

/-- The collaborators of one run: per-stage model gateway outcomes (as
functions of the observed state, so successive loop iterations may
differ) and the tool registry. -/
structure Oracles where
  gather : TriageState → LLMToolOutcome
  logs : TriageState → LLMToolOutcome
  metrics : TriageState → LLMToolOutcome
  rag : TriageState → LLMTextOutcome
  plan : TriageState → LLMTextOutcome
  validate : TriageState → LLMTextOutcome
  tool : ToolCall → String

/-- Dispatch one node. -/
def runNode (o : Oracles) (n : Node) (s : TriageState) : StateUpdate :=
  match n with
  | .gather_context => gather_context_run s (o.gather s)
  | .analyze_logs => analyze_logs_run s (o.logs s)
  | .analyze_metrics => analyze_metrics_run s (o.metrics s)
  | .tools => tool_node_run s o.tool
  | .incident_rag => incident_rag_run s (o.rag s)
  | .plan_remediation => plan_remediation_run s (o.plan s)
  | .validate_action => (validate_action_run s (o.validate s)).1
  | .finalize => finalize_run s
  | .endNode => {}

/-- `triage_graph.ainvoke(initial_state, config)` with
`interrupt_before=["finalize"]`: execute nodes from `n`, merging each
partial update, until the next node would be `finalize`; the state at
that point is checkpointed and returned.  `none` models fuel exhaustion
(the source's tool loop has no iteration cap). -/
def ainvokeUntilInterrupt (o : Oracles) :
    ℕ → Node → TriageState → Option TriageState
  | 0, _, _ => none
  | fuel + 1, n, s =>
      let s1 := mergeState s (runNode o n s)
      if nextNode n s1 = .finalize then some s1
      else ainvokeUntilInterrupt o fuel (nextNode n s1) s1

/-- The initial state literal of `run_triage_workflow` (lines 123–136). -/
def initial_state (triage_id : String) (alert : Alert) : TriageState :=
  { triage_id := triage_id
    alert := alert
    messages := []
    logs_summary := ""
    metrics_summary := ""
    anomalies := []
    similar_incidents := []
    hypothesis := ""
    recommended_action := ""
    confidence := 0
    requires_approval := true
    events := [] }

/-- `TriageResult` (the fields the workflow functions populate). -/
structure TriageResult where
  triage_id : String
  alert_id : String
  service : String
  severity : String
  status : String
  logs_summary : String
  metrics_summary : String
  hypothesis : String
  recommended_action : String
  confidence : ℚ
  requires_approval : Bool
  events : List Event
  completed_at : Option String
  deriving DecidableEq, Repr

/-- The `TriageResult(...)` built at the end of `run_triage_workflow`
(lines 150–164).  The graph state has no `completed_at` channel and no
node returns one, so `final_state.get("completed_at")` is always
`None`. -/
def mk_run_result (triage_id : String) (alert : Alert) (s : TriageState) :
    TriageResult :=
  { triage_id := triage_id
    alert_id := alert.id
    service := alert.service
    severity := alert.severity
    status := if s.requires_approval then "pending" else "approved"
    logs_summary := pyOr s.logs_summary "Investigation completed. See trace."
    metrics_summary := pyOr s.metrics_summary "Metrics analyzed. See trace."
    hypothesis := pyOr s.hypothesis "Analysis in progress..."
    recommended_action := pyOr s.recommended_action "Manual investigation required"
    confidence := s.confidence
    requires_approval := s.requires_approval
    events := s.events
    completed_at := none }

/-- `run_triage_workflow(triage_id, alert)`: `ainvoke` runs until the
interrupt before `finalize`; when `requires_approval` is false at that
point, a second `ainvoke(None)` immediately executes `finalize` in the
same call. -/
def run_triage_workflow (o : Oracles) (fuel : ℕ) (triage_id : String)
    (alert : Alert) : Option TriageResult :=
  match ainvokeUntilInterrupt o fuel .gather_context
      (initial_state triage_id alert) with
  | none => none
  | some final_state =>
      if final_state.requires_approval then
        some (mk_run_result triage_id alert final_state)
      else
        some (mk_run_result triage_id alert
          (mergeState final_state (finalize_run final_state)))

/-- `approve_triage_workflow(triage_id)` applied to the checkpointed
state: `ainvoke(None)` resumes from the interrupt, running `finalize`
(which only appends an event), and the result is rebuilt with `status`
hard-coded to `"approved"`, `requires_approval` hard-coded to `False`,
and `completed_at = final_state.get("completed_at")` — which is always
`None`, as no node ever writes it. -/
def approve_triage_workflow (checkpoint : TriageState) : TriageResult :=
  let final_state := mergeState checkpoint (finalize_run checkpoint)
  { triage_id := final_state.triage_id
    alert_id := final_state.alert.id
    service := final_state.alert.service
    severity := final_state.alert.severity
    status := "approved"
    logs_summary := pyOr final_state.logs_summary "Investigation completed. See trace."
    metrics_summary := pyOr final_state.metrics_summary "Metrics analyzed. See trace."
    hypothesis := pyOr final_state.hypothesis "Analysis complete."
    recommended_action := pyOr final_state.recommended_action "Action approved."
    confidence := final_state.confidence
    requires_approval := false
    events := final_state.events
    completed_at := none }

/-! ## Service layer (`app/services/triage.py`, `app/api/routes/alerts.py`) -/

/-- `approve_triage(triage_id)`.  `stored` is the `triage_results` entry
for the id (the in-memory result store); `resume` is the outcome of
`approve_triage_workflow(triage_id)` — `.error` models the underlying
graph resume raising (e.g. no checkpoint for the thread).  The result
type records raising as `.error`: the source returns `None` for an
unknown id without invoking the workflow, and its catch-all `except`
converts every workflow exception into `None`, so the function itself
never raises. -/
def approve_triage (stored : Option TriageResult)
    (resume : Except String TriageResult) :
    Except String (Option TriageResult) :=
  match stored with
  | none => .ok none
  | some _ =>
      match resume with
      | .ok result => .ok (some result)
      | .error _ => .ok none

/-- The HTTP response of `POST /triage/{id}/approve`: a 404
`HTTPException` when `approve_triage` returned `None`, else a success
payload. -/
inductive ApproveRoute where
  | httpError (status : ℕ) (detail : String)
  | success (status : String) (action : String)
  deriving DecidableEq, Repr

/-- `approve_action(triage_id)` (`alerts.py` lines 68–88). -/
def approve_action (triage_id : String) (stored : Option TriageResult)
    (resume : Except String TriageResult) : ApproveRoute :=
  match approve_triage stored resume with
  | .ok none =>
      .httpError 404 ("Triage " ++ triage_id ++ " not found or approval failed")
  | .ok (some result) => .success result.status result.recommended_action
  | .error e => .httpError 500 e

/-! ## Concrete fixtures used to evaluate the embedding -/

/-- A collaborator set in which every model call raises and every tool
returns a fixed payload. -/
def oFail : Oracles :=
  { gather := fun _ => .error "boom"
    logs := fun _ => .error "boom"
    metrics := fun _ => .error "boom"
    rag := fun _ => .error "boom"
    plan := fun _ => .error "boom"
    validate := fun _ => .error "boom"
    tool := fun _ => "tool result" }

/-- A critical-severity alert for a non-critical service. -/
def alertCrit : Alert :=
  { id := "a1", service := "checkout", severity := "critical"
    alert_type := "latency_spike", timestamp := "2026-01-24T19:20:10Z" }

/-- A session state about to validate a benign action with high
confidence on a critical-severity alert: layer 1 allows, so only the
severity override forces approval. -/
def sBenignCritical : TriageState :=
  { initial_state "t1" alertCrit with
    recommended_action := "scale replicas to 5"
    confidence := mkRat 9 10 }

/-- The spec scenario: `action = "terminate pod-7"`, `service =
"checkout"`, `confidence = 0.95`. -/
def sTerminate : TriageState :=
  { initial_state "t2" { alertCrit with severity := "high" } with
    recommended_action := "terminate pod-7"
    confidence := mkRat 95 100 }

/-- A history whose most recent tool-calling message names an
unrecognized tool, with an older `search_logs` request before it. -/
def sUnknownTool : TriageState :=
  { initial_state "t3" alertCrit with
    messages := [.ai "" [{ name := "search_logs" }],
                 .ai "" [{ name := "unknown_tool" }]] }

/-- The state right after `gather_context` returned a response carrying a
tool-call request (the graph merges the partial update before routing). -/
def sAfterGatherToolCall : TriageState :=
  mergeState (initial_state "t4" alertCrit)
    (gather_context_run (initial_state "t4" alertCrit)
      (.ok { content := "", tool_calls := [{ name := "get_alert_rules" }] }))

/-- A completed (already finalized) stored triage result. -/
def trDone : TriageResult :=
  { triage_id := "t5", alert_id := "a5", service := "checkout"
    severity := "critical", status := "approved", logs_summary := "done"
    metrics_summary := "done", hypothesis := "h", recommended_action := "act"
    confidence := 1, requires_approval := false, events := []
    completed_at := none }

/-- The claim-level notion of the originating tool call after tool
execution: the first tool-call-carrying message scanning backwards, and
its first call's name. -/
def lastToolCallName (msgs : List Message) : Option String :=
  msgs.reverse.findSome? Message.firstToolName

/-! ## Helper lemmas on the substring test -/

theorem startsWithList_self_append (n b : List Char) :
    startsWithList n (n ++ b) = true := by
  induction n with
  | nil => rfl
  | cons c t ih => simp [startsWithList, ih]

theorem listContainsSub_of_tail {n h : List Char} (c : Char)
    (hh : listContainsSub n h = true) : listContainsSub n (c :: h) = true := by
  cases n with
  | nil => rfl
  | cons a t => simp [listContainsSub, hh]

theorem listContainsSub_self_append (n b : List Char) :
    listContainsSub n (n ++ b) = true := by
  cases n with
  | nil =>
      cases b with
      | nil => rfl
      | cons c t => simp [listContainsSub, startsWithList]
  | cons a t =>
      have h := startsWithList_self_append (a :: t) b
      simp only [List.cons_append] at h ⊢
      simp [listContainsSub, h]

theorem listContainsSub_append_left (n : List Char) :
    ∀ (a h : List Char), listContainsSub n h = true →
      listContainsSub n (a ++ h) = true := by
  intro a
  induction a with
  | nil => intro h hh; simpa using hh
  | cons c t ih => intro h hh; exact listContainsSub_of_tail c (ih h hh)

/-- A string occurs in any concatenation that displays it in the middle. -/
theorem containsSub_middle (a mid b : String) :
    containsSub mid (a ++ mid ++ b) = true := by
  show listContainsSub mid.data (a ++ mid ++ b).data = true
  have hdata : (a ++ mid ++ b).data = a.data ++ (mid.data ++ b.data) := by
    simp [String.data_append]
  rw [hdata]
  exact listContainsSub_append_left _ _ _ (listContainsSub_self_append _ _)

/-! ## C1 — severity override in `validate_action` -/

/-- **C1.** For every session whose alert severity is `"critical"` or
`"high"`, the partial update of the `validate_action` stage sets
`requires_approval` to `true` in every branch: when layer-1 guardrails
block, when the model-assisted layer runs (whatever the model answers),
and when an exception occurs during validation. -/
theorem validate_action_severity_override (s : TriageState)
    (llm : LLMTextOutcome)
    (h : s.alert.severity = "critical" ∨ s.alert.severity = "high") :
    (validate_action_run s llm).1.requires_approval = some true := by
  unfold validate_action_run
  by_cases hg : (TriageGuardrails.validate_action s.recommended_action
      s.alert.service s.confidence).allowed = true
  · cases llm with
    | ok content => rcases h with h | h <;> simp [hg, h, List.contains]
    | error e => simp [hg]
  · simp [hg]

/-- Witness for C1 at the explicit state `sBenignCritical` (severity
`"critical"`, guardrail layer 1 allowing, model answering "NO"). -/
theorem validate_action_severity_override_witness :
    (sBenignCritical.alert.severity = "critical" ∨
      sBenignCritical.alert.severity = "high") ∧
    (validate_action_run sBenignCritical (.ok "NO")).1.requires_approval =
      some true :=
  ⟨Or.inl rfl,
   validate_action_severity_override sBenignCritical (.ok "NO") (Or.inl rfl)⟩

/-! ## C2 — layer-1 guardrail blocks high-risk actions without the model -/

/-- **C2.** For every proposed action containing a high-risk keyword,
`TriageGuardrails.validate_action` returns `allowed=false` and
`requires_approval=true` with a reason naming a matched keyword, and the
`validate_action` stage returns this decision without consulting the
Model Gateway (second component `false`) and without appending any model
message. -/
theorem guardrail_blocks_high_risk (s : TriageState) (llm : LLMTextOutcome)
    (h : ∃ k ∈ TriageGuardrails.HIGH_RISK_ACTIONS,
      containsSub k (pyLower s.recommended_action) = true) :
    (TriageGuardrails.validate_action s.recommended_action s.alert.service
        s.confidence).allowed = false ∧
    (TriageGuardrails.validate_action s.recommended_action s.alert.service
        s.confidence).requires_approval = true ∧
    (∃ k ∈ TriageGuardrails.HIGH_RISK_ACTIONS,
      containsSub k (pyLower s.recommended_action) = true ∧
      containsSub k (TriageGuardrails.validate_action s.recommended_action
        s.alert.service s.confidence).reason = true) ∧
    (validate_action_run s llm).2 = false ∧
    (validate_action_run s llm).1.requires_approval = some true ∧
    (validate_action_run s llm).1.messages = [] := by
  obtain ⟨k, hkmem, hksub⟩ := h
  have hsome : (TriageGuardrails.HIGH_RISK_ACTIONS.find?
      (fun k => containsSub k (pyLower s.recommended_action))).isSome :=
    List.find?_isSome.mpr ⟨k, hkmem, hksub⟩
  obtain ⟨k0, hfind⟩ := Option.isSome_iff_exists.mp hsome
  have hk0mem := List.mem_of_find?_eq_some hfind
  have hk0p := List.find?_some hfind
  have hg : TriageGuardrails.validate_action s.recommended_action
      s.alert.service s.confidence =
      { allowed := false, requires_approval := true,
        reason := "High-risk action " ++ squote ++ k0 ++ squote ++
          " requires human approval" } := by
    simp only [TriageGuardrails.validate_action, hfind]
  have hreason : containsSub k0 ("High-risk action " ++ squote ++ k0 ++
      squote ++ " requires human approval") = true := by
    have := containsSub_middle ("High-risk action " ++ squote) k0
      (squote ++ " requires human approval")
    simpa [String.append_assoc] using this
  refine ⟨by rw [hg], by rw [hg], ⟨k0, hk0mem, hk0p, by rw [hg]; exact hreason⟩,
    ?_, ?_, ?_⟩ <;>
  · unfold validate_action_run
    simp [hg]

/-- Witness for C2 at the spec scenario: action `"terminate pod-7"`,
service `"checkout"`, confidence `0.95`. -/
theorem guardrail_blocks_high_risk_witness :
    (∃ k ∈ TriageGuardrails.HIGH_RISK_ACTIONS,
      containsSub k (pyLower "terminate pod-7") = true) ∧
    (TriageGuardrails.validate_action "terminate pod-7" "checkout"
      (mkRat 95 100)).allowed = false ∧
    containsSub "terminate" (TriageGuardrails.validate_action
      "terminate pod-7" "checkout" (mkRat 95 100)).reason = true ∧
    (validate_action_run sTerminate (.ok "NO")).2 = false := by
  have h := guardrail_blocks_high_risk sTerminate (.ok "NO")
    ⟨"terminate", by decide, by decide⟩
  exact ⟨⟨"terminate", by decide, by decide⟩, h.1, by decide, h.2.2.2.1⟩

/-! ## Helper lemmas on the graph executor -/

/-- The only edge into `finalize` leaves `validate_action`: the interrupt
fires exactly after the validation stage. -/
theorem nextNode_finalize_iff (n : Node) (s : TriageState) :
    nextNode n s = Node.finalize ↔ n = Node.validate_action := by
  cases n <;> simp [nextNode] <;> split <;> simp_all

/-- Whenever `ainvoke` reaches the interrupt, the checkpointed state is
one produced by merging a `validate_action` partial update: the first
call runs the pipeline up to and including `validate_action`. -/
theorem ainvoke_stops_after_validate (o : Oracles) :
    ∀ (fuel : ℕ) (n : Node) (s s1 : TriageState),
      ainvokeUntilInterrupt o fuel n s = some s1 →
      ∃ s0, s1 = mergeState s0 ((validate_action_run s0 (o.validate s0)).1) := by
  intro fuel
  induction fuel with
  | zero => intro n s s1 h; simp [ainvokeUntilInterrupt] at h
  | succ f ih =>
      intro n s s1 h
      unfold ainvokeUntilInterrupt at h
      by_cases hfin : nextNode n (mergeState s (runNode o n s)) = Node.finalize
      · rw [if_pos hfin] at h
        have hn := (nextNode_finalize_iff n _).mp hfin
        subst hn
        refine ⟨s, ?_⟩
        have h1 := Option.some.inj h
        simpa [runNode] using h1.symm
      · rw [if_neg hfin] at h
        exact ih _ _ _ h

/-- `finalize` only appends an event, so merging its update never changes
`requires_approval`. -/
theorem mergeState_finalize_requires_approval (s : TriageState) :
    (mergeState s (finalize_run s)).requires_approval = s.requires_approval := by
  simp [mergeState, finalize_run]

/-! ## C3 — suspend before `finalize` / auto-continue, and result status -/

/-- **C3 (amended).** `run(triage_id, alert)` executes the pipeline up
to and including `validate_action`, then checkpoints and suspends before
`finalize`, returning a result with status `"pending"` when
`requires_approval` is true at that point; when it is false the call
immediately continues through `finalize` in the same invocation and
returns a result with status `"approved"`.  (The source result statuses
are `"pending"`/`"approved"`, not the claimed
`"pending_approval"`/`"auto_approved"`, which appear only inside the
`finalize` trace event.) -/
theorem run_triage_workflow_suspends_or_finalizes (o : Oracles) (fuel : ℕ)
    (tid : String) (alert : Alert) (r : TriageResult)
    (h : run_triage_workflow o fuel tid alert = some r) :
    ∃ s1, ainvokeUntilInterrupt o fuel Node.gather_context
        (initial_state tid alert) = some s1 ∧
      (∃ s0, s1 = mergeState s0 ((validate_action_run s0 (o.validate s0)).1)) ∧
      (s1.requires_approval = true →
        r = mk_run_result tid alert s1 ∧ r.status = "pending") ∧
      (s1.requires_approval = false →
        r = mk_run_result tid alert (mergeState s1 (finalize_run s1)) ∧
          r.status = "approved") := by
  unfold run_triage_workflow at h
  cases hinv : ainvokeUntilInterrupt o fuel Node.gather_context
      (initial_state tid alert) with
  | none => rw [hinv] at h; simp at h
  | some s1 =>
      rw [hinv] at h
      dsimp only at h
      refine ⟨s1, rfl, ainvoke_stops_after_validate o fuel _ _ _ hinv, ?_, ?_⟩
      · intro hreq
        simp only [hreq, if_true, Option.some.injEq] at h
        subst h
        exact ⟨rfl, by simp [mk_run_result, hreq]⟩
      · intro hreq
        simp only [hreq, Bool.false_eq_true, if_false, Option.some.injEq] at h
        subst h
        refine ⟨rfl, ?_⟩
        simp [mk_run_result, mergeState_finalize_requires_approval, hreq]

/-- **C3 (counterexample).** A concrete run (all model calls failing, a
critical alert): the run suspends with `requires_approval = true` before
`finalize` (no `finalize` event in the trace), but the returned status is
`"pending"`, not the claimed `"pending_approval"`; the auto-approval
status is likewise `"approved"`, not `"auto_approved"`. -/
theorem run_triage_workflow_status_literals :
    (run_triage_workflow oFail 10 "t1" alertCrit).map
        (fun r => (r.status, r.requires_approval,
          r.events.all (fun ev => ev.node ≠ "finalize"))) =
      some ("pending", true, true) ∧
    ("pending" : String) ≠ "pending_approval" ∧
    ("approved" : String) ≠ "auto_approved" := by
  refine ⟨by decide, by decide, by decide⟩

/-- Witness for C3 (amended) at the concrete run `oFail`/`alertCrit`:
the interrupt state exists, was produced by `validate_action`, has
`requires_approval = true`, and the returned status is `"pending"`. -/
theorem run_triage_workflow_suspends_witness :
    ∃ r s1, run_triage_workflow oFail 10 "t1" alertCrit = some r ∧
      ainvokeUntilInterrupt oFail 10 Node.gather_context
        (initial_state "t1" alertCrit) = some s1 ∧
      s1.requires_approval = true ∧ r.status = "pending" := by
  have hs : (run_triage_workflow oFail 10 "t1" alertCrit).isSome = true := by
    decide
  obtain ⟨r, hr⟩ := Option.isSome_iff_exists.mp hs
  obtain ⟨s1, hinv, _, hpend, _⟩ :=
    run_triage_workflow_suspends_or_finalizes oFail 10 "t1" alertCrit r hr
  have hreq : s1.requires_approval = true := by
    have hcomp : (ainvokeUntilInterrupt oFail 10 Node.gather_context
        (initial_state "t1" alertCrit)).map
        (fun s => s.requires_approval) = some true := by decide
    rw [hinv] at hcomp
    simpa using hcomp
  exact ⟨r, s1, hr, hinv, hreq, (hpend hreq).2⟩

/-! ## C4 — resume on unknown or completed ids -/

/-- **C4 (amended).** Resume never raises from the repository's own
code: `approve_triage` answers `None` for an unknown id without invoking
the workflow (the HTTP route turns that into a 404 error), and for a
stored — possibly already completed — id it re-invokes the workflow
resume, returning the rebuilt result when the resume returns and
swallowing any exception into `None` (again a 404); no defined
"already completed" error exists. -/
theorem approve_triage_spec (tid : String) (stored : Option TriageResult)
    (resume : Except String TriageResult) :
    (∃ v, approve_triage stored resume = .ok v) ∧
    (stored = none →
      approve_triage stored resume = .ok none ∧
      approve_action tid stored resume =
        .httpError 404 ("Triage " ++ tid ++ " not found or approval failed")) ∧
    (∀ r, resume = .ok r → stored ≠ none →
      approve_triage stored resume = .ok (some r)) ∧
    (∀ e, resume = .error e → stored ≠ none →
      approve_triage stored resume = .ok none) := by
  cases stored <;> cases resume <;>
    simp [approve_triage, approve_action]

/-- Witness for C4 (amended): a second approval of the already-completed
`trDone` under a resume that returns the final state. -/
theorem approve_triage_spec_witness :
    approve_triage (some trDone) (.ok trDone) = .ok (some trDone) ∧
    approve_action "t5" none (.error "no checkpoint") =
      .httpError 404 "Triage t5 not found or approval failed" := by
  refine ⟨(approve_triage_spec "t5" (some trDone) (.ok trDone)).2.2.1 trDone rfl
      (by simp), ?_⟩
  have h := (approve_triage_spec "t5" none (.error "no checkpoint")).2.1 rfl
  exact h.2

/-- **C4 (counterexample).** Calling resume a second time after the run
completed does not raise a defined error: when the underlying resume
returns a state, the call silently succeeds (HTTP success payload); when
it raises, the service swallows the exception into `None` and the route
reports a generic 404 — in neither case does `approve_triage` raise. -/
theorem approve_second_resume_not_error :
    approve_triage (some trDone) (.ok trDone) = .ok (some trDone) ∧
    approve_action "t5" (some trDone) (.ok trDone) =
      .success "approved" "act" ∧
    approve_triage (some trDone) (.error "GraphError") = .ok none ∧
    approve_action "t5" (some trDone) (.error "GraphError") =
      .httpError 404 "Triage t5 not found or approval failed" := by
  refine ⟨rfl, by decide, rfl, by decide⟩

/-! ## C5 — resume completes with status `"approved"` but no timestamp -/

/-- **C5 (code bug).** `resume(triage_id)` on a suspended session runs
`finalize` and produces a result with status `"approved"` — but the
completion timestamp is never set: `finalize` returns only an event, the
graph state has no `completed_at` channel, so
`final_state.get("completed_at")` is always `None` (despite the source
comment "auto-resume to run 'finalize' and set completed_at").  Verified
universally and on the concrete suspended critical-severity run. -/
theorem approve_triage_workflow_no_completed_at :
    (∀ s : TriageState, (approve_triage_workflow s).status = "approved" ∧
      (approve_triage_workflow s).completed_at = none ∧
      (approve_triage_workflow s).events =
        s.events ++ (finalize_run s).events) ∧
    (ainvokeUntilInterrupt oFail 10 Node.gather_context
        (initial_state "t1" alertCrit)).map
      (fun s1 => ((approve_triage_workflow s1).status,
        (approve_triage_workflow s1).completed_at,
        (approve_triage_workflow s1).events.any
          (fun ev => ev.node = "finalize"), s1.requires_approval)) =
      some ("approved", none, true, true) := by
  constructor
  · intro s
    exact ⟨rfl, rfl, rfl⟩
  · decide

/-! ## Helper lemmas on the post-tool routing scan -/

theorem routeScan_append_none (l rest : List Message)
    (h : ∀ m ∈ l, m.firstToolName = none) :
    routeScan (l ++ rest) = routeScan rest := by
  induction l with
  | nil => rfl
  | cons m t ih =>
      have hm := h m (List.mem_cons_self m t)
      simp only [List.cons_append, routeScan, hm]
      exact ih (fun x hx => h x (List.mem_cons_of_mem m hx))

theorem routeScan_default (l : List Message)
    (h : ∀ m ∈ l, ∀ n, m.firstToolName = some n →
      n ≠ "search_logs" ∧ n ≠ "get_service_metrics") :
    routeScan l = "analyze_metrics" := by
  induction l with
  | nil => rfl
  | cons m t ih =>
      have ht := ih (fun x hx n hn => h x (List.mem_cons_of_mem m hx) n hn)
      cases hm : m.firstToolName with
      | none => simp only [routeScan, hm]; exact ht
      | some n =>
          obtain ⟨h1, h2⟩ := h m (List.mem_cons_self m t) n hm
          simp only [routeScan, hm, if_neg h1, if_neg h2]
          exact ht

/-! ## C6 — post-tool routing by originating tool-call name -/

/-- **C6 (amended).** `route_tool_output` scans the message history from
most recent to oldest: the first tool-calling message whose first call
names `search_logs` routes to `analyze_logs` and `get_service_metrics`
routes to `analyze_metrics`; an unrecognized first name does not fall
back immediately — the scan continues to older tool-calling messages —
and only when the history is empty or no message carries a recognized
name does the function return the fixed default `analyze_metrics`. -/
theorem route_tool_output_characterization (s : TriageState) :
    (s.messages = [] → route_tool_output s = "analyze_metrics") ∧
    (∀ older c tcs trailing,
      s.messages =
        older ++ Message.ai c ({ name := "search_logs" } :: tcs) :: trailing →
      (∀ m ∈ trailing, m.firstToolName = none) →
      route_tool_output s = "analyze_logs") ∧
    (∀ older c tcs trailing,
      s.messages = older ++
        Message.ai c ({ name := "get_service_metrics" } :: tcs) :: trailing →
      (∀ m ∈ trailing, m.firstToolName = none) →
      route_tool_output s = "analyze_metrics") ∧
    ((∀ m ∈ s.messages, ∀ n, m.firstToolName = some n →
        n ≠ "search_logs" ∧ n ≠ "get_service_metrics") →
      route_tool_output s = "analyze_metrics") := by
  refine ⟨?_, ?_, ?_, ?_⟩
  · intro h; simp [route_tool_output, h]
  · intro older c tcs trailing hmsg htr
    have hne : s.messages ≠ [] := by simp [hmsg]
    have hrev : s.messages.reverse =
        trailing.reverse ++
          Message.ai c ({ name := "search_logs" } :: tcs) :: older.reverse := by
      simp [hmsg]
    unfold route_tool_output
    rw [if_neg (by simpa using hne), hrev,
      routeScan_append_none _ _ (fun m hm => htr m (List.mem_reverse.mp hm))]
    simp [routeScan, Message.firstToolName]
  · intro older c tcs trailing hmsg htr
    have hne : s.messages ≠ [] := by simp [hmsg]
    have hrev : s.messages.reverse =
        trailing.reverse ++
          Message.ai c ({ name := "get_service_metrics" } :: tcs) ::
            older.reverse := by
      simp [hmsg]
    unfold route_tool_output
    rw [if_neg (by simpa using hne), hrev,
      routeScan_append_none _ _ (fun m hm => htr m (List.mem_reverse.mp hm))]
    simp [routeScan, Message.firstToolName]
  · intro h
    unfold route_tool_output
    by_cases he : s.messages.isEmpty
    · rw [if_pos he]
    · rw [if_neg he]
      exact routeScan_default _
        (fun m hm n hn => h m (List.mem_reverse.mp hm) n hn)

/-- Witness for C6 (amended): a `search_logs` request followed by its
tool result routes back to `analyze_logs`. -/
theorem route_tool_output_characterization_witness :
    route_tool_output { initial_state "t6" alertCrit with
      messages := [Message.ai "x" [{ name := "search_logs" }],
                   Message.tool "r"] } = "analyze_logs" := by
  refine (route_tool_output_characterization _).2.1 [] "x" []
    [Message.tool "r"] rfl ?_
  intro m hm
  simp only [List.mem_singleton] at hm
  subst hm
  rfl

/-- **C6 (counterexample).** When the originating (most recent)
tool-call name is the unrecognized `"unknown_tool"`, the function does
not fall back to the default stage: an older `search_logs` request makes
it return `"analyze_logs"`. -/
theorem route_unrecognized_scans_past :
    lastToolCallName sUnknownTool.messages = some "unknown_tool" ∧
    ("unknown_tool" : String) ≠ "search_logs" ∧
    ("unknown_tool" : String) ≠ "get_service_metrics" ∧
    route_tool_output sUnknownTool = "analyze_logs" ∧
    ("analyze_logs" : String) ≠ "analyze_metrics" := by
  refine ⟨by decide, by decide, by decide, by decide, by decide⟩

/-! ## C7 — routing after tool-enabled stages -/

/-- **C7 (amended).** After the log-analysis and metrics-analysis stages
the workflow inspects the most recent message and routes to the shared
tool node exactly when it carries tool-call requests, otherwise to the
next stage in pipeline order; but the context-gathering stage — although
it also binds tools and may return a tool-calling message — advances
unconditionally to `analyze_logs`. -/
theorem stage_tool_routing (s : TriageState) :
    (∀ c tcs, s.messages.getLast? = some (.ai c tcs) → tcs ≠ [] →
      nextNode Node.analyze_logs s = Node.tools ∧
      nextNode Node.analyze_metrics s = Node.tools) ∧
    (∀ m, s.messages.getLast? = some m → m.hasToolCalls = false →
      nextNode Node.analyze_logs s = Node.analyze_metrics ∧
      nextNode Node.analyze_metrics s = Node.incident_rag) ∧
    (s.messages.getLast? = none →
      nextNode Node.analyze_logs s = Node.analyze_metrics ∧
      nextNode Node.analyze_metrics s = Node.incident_rag) ∧
    nextNode Node.gather_context s = Node.analyze_logs := by
  refine ⟨?_, ?_, ?_, rfl⟩
  · intro c tcs h hne
    have hsc : should_continue s = "tools" := by
      unfold should_continue
      rw [h]
      cases tcs with
      | nil => exact absurd rfl hne
      | cons a t => simp [Message.hasToolCalls]
    constructor <;> simp [nextNode, hsc]
  · intro m h hm
    have hsc : should_continue s = "next" := by
      unfold should_continue
      rw [h]
      simp [hm]
    constructor <;> simp [nextNode, hsc]
  · intro h
    have hsc : should_continue s = "next" := by
      unfold should_continue
      rw [h]
    constructor <;> simp [nextNode, hsc]

/-- Witness for C7 (amended) at the state reached after `gather_context`
issued a tool call. -/
theorem stage_tool_routing_witness :
    nextNode Node.analyze_logs sAfterGatherToolCall = Node.tools ∧
    nextNode Node.gather_context sAfterGatherToolCall = Node.analyze_logs := by
  have h := stage_tool_routing sAfterGatherToolCall
  exact ⟨(h.1 "" [{ name := "get_alert_rules" }] (by decide) (by decide)).1,
    h.2.2.2⟩

/-- **C7 (counterexample).** `gather_context` binds tools and here
returned a tool-calling message, yet the graph has only the
unconditional edge `gather_context → analyze_logs`: the workflow
advances past the stage while its last message has unresolved tool-call
requests. -/
theorem gather_context_advances_past_tool_call :
    (sAfterGatherToolCall.messages.getLast?.map Message.hasToolCalls) =
      some true ∧
    should_continue sAfterGatherToolCall = "tools" ∧
    nextNode Node.gather_context sAfterGatherToolCall = Node.analyze_logs ∧
    Node.analyze_logs ≠ Node.tools := by
  refine ⟨by decide, by decide, rfl, by decide⟩

/-! ## C8 — every stage fails closed -/

/-- **C8.** Every stage node catches internal exceptions inside its own
body and returns a well-defined partial update containing its
stage-appropriate fallback value plus one `events` entry carrying the
error text; nothing propagates past the node's boundary (the nodes are
total functions of the model-call outcome), and the engine's routing
(`nextNode`) never inspects the outcome, so it advances regardless.  The
exact fallback update of each of the six model-calling nodes is stated
(for `validate_action` the exception handler is reachable only when
layer 1 allowed the action; when layer 1 blocks, the update still sets
`requires_approval := some true`); the `finalize` node makes no model
call and always returns its single event. -/
theorem stage_nodes_fail_closed (s : TriageState) (e : String) :
    gather_context_run s (.error e) =
      { events := [{ node := "gather_context",
                     summary := "Failed to gather context",
                     error := some ("Context gathering failed: " ++ e) }] } ∧
    analyze_logs_run s (.error e) =
      { logs_summary := some "Error analyzing logs",
        events := [{ node := "analyze_logs",
                     summary := "Failed to analyze logs",
                     error := some ("Log analysis failed: " ++ e) }] } ∧
    analyze_metrics_run s (.error e) =
      { metrics_summary := some "Error fetching metrics",
        events := [{ node := "analyze_metrics",
                     summary := "Failed to analyze metrics",
                     error := some ("Metrics analysis failed: " ++ e) }] } ∧
    incident_rag_run s (.error e) =
      { similar_incidents := some
          [{ id := "INC-2025-1234", service := s.alert.service,
             type := s.alert.alert_type,
             resolution := "Scaled up replicas from 3 to 5",
             similarity := mkRat 87 100 },
           { id := "INC-2025-1100", service := s.alert.service,
             type := "latency_spike",
             resolution := "Applied rate limiting to upstream",
             similarity := mkRat 72 100 }]
        events := [{ node := "incident_rag",
                     summary := "Found 2 similar past incidents",
                     llm_reasoning := some ("LLM unavailable: " ++ e ++
                       ". Using similarity scores only.") }] } ∧
    plan_remediation_run s (.error e) =
      { hypothesis := some "Degraded Service"
        recommended_action := some ("Restart " ++ s.alert.service)
        confidence := some (mkRat 1 2)
        messages := [.human ("Planning failed: " ++ e)]
        events := [{ node := "plan_remediation",
                     summary := "Proposed: " ++
                       pySlice 100 ("Restart " ++ s.alert.service),
                     llm_reasoning := some ("Planning failed: " ++ e) }] } ∧
    (validate_action_run s (.error e)).1.requires_approval = some true ∧
    ((TriageGuardrails.validate_action s.recommended_action s.alert.service
        s.confidence).allowed = true →
      validate_action_run s (.error e) =
        ({ requires_approval := some true
           messages := [.human ("Validation failed: " ++ e)]
           events := [{ node := "validate_action",
                        summary := "Validation complete. Requires approval: True",
                        llm_reasoning := some ("Validation failed: " ++ e) }] },
         true)) ∧
    finalize_run s =
      { events := [{ node := "finalize",
                     summary := "Triage complete for " ++ s.alert.service ++
                       ". Status: " ++ (if s.requires_approval then
                         "pending_approval" else "auto_approved") }] } := by
  refine ⟨rfl, rfl, rfl, by simp [incident_rag_run]; rfl, rfl, ?_, ?_, rfl⟩
  · by_cases hg : (TriageGuardrails.validate_action s.recommended_action
        s.alert.service s.confidence).allowed = true
    · unfold validate_action_run
      simp [hg]
    · unfold validate_action_run
      simp [hg]
  · intro hg
    unfold validate_action_run
    simp [hg, pyBool]

/-- Witness for C8 at the concrete guardrail-allowed state
`sBenignCritical` with exception text `"boom"`. -/
theorem stage_nodes_fail_closed_witness :
    validate_action_run sBenignCritical (.error "boom") =
      ({ requires_approval := some true
         messages := [.human "Validation failed: boom"]
         events := [{ node := "validate_action",
                      summary := "Validation complete. Requires approval: True",
                      llm_reasoning := some "Validation failed: boom" }] },
       true) ∧
    analyze_logs_run sBenignCritical (.error "boom") =
      { logs_summary := some "Error analyzing logs",
        events := [{ node := "analyze_logs",
                     summary := "Failed to analyze logs",
                     error := some "Log analysis failed: boom" }] } := by
  have h := stage_nodes_fail_closed sBenignCritical "boom"
  exact ⟨h.2.2.2.2.2.2.1 (by decide), h.2.1⟩

/-! ## C9 — the confidence invariant [0, 1] -/

/-- **C9 (code bug).** The `confidence` state field is documented (in
`state.py` and the spec) as a float in [0,1], and the prompt asks for a
0–1 scale; but `plan_remediation` stores `float(...)` of the matched
digits with no clamping: a model reply of `"Confidence: 85"` (a 0–100
scale answer) puts `85` into the state, violating the invariant.  The
initial value is in bounds. -/
theorem plan_confidence_out_of_bounds :
    (plan_remediation_run (initial_state "t1" alertCrit)
        (.ok "Confidence: 85")).confidence = some 85 ∧
    ¬ ((85 : ℚ) ≤ 1) ∧
    (initial_state "t1" alertCrit).confidence = 0 ∧
    ((0 : ℚ) ≤ 0 ∧ (0 : ℚ) ≤ 1) := by
  refine ⟨by decide, by decide, rfl, by decide, by decide⟩

/-! ## C10 — summaries are truncated to 2000 characters -/

theorem length_ite_slice_le (content fb : String) (hfb : fb.length ≤ 2000) :
    (if content ≠ "" then pySlice 2000 content else fb).length ≤ 2000 := by
  by_cases h : content = ""
  · simp [h, hfb]
  · simp only [h, ne_eq, not_false_eq_true, if_pos]
    show (content.data.take 2000).length ≤ 2000
    simp [List.length_take]

/-- **C10.** When the log-analysis or metrics-analysis stage completes
without tool calls, the summary written is the response text truncated
to at most 2000 characters, with the fixed fallback sentence substituted
when the text is empty; either way its length is bounded by 2000. -/
theorem summaries_truncated (s : TriageState) (content : String) :
    (analyze_logs_run s (.ok ⟨content, []⟩)).logs_summary =
      some (if content ≠ "" then pySlice 2000 content
            else "Log analysis completed. See trace for details.") ∧
    (analyze_metrics_run s (.ok ⟨content, []⟩)).metrics_summary =
      some (if content ≠ "" then pySlice 2000 content
            else "Metrics analysis completed. See trace for details.") ∧
    ((analyze_logs_run s (.ok ⟨content, []⟩)).logs_summary.getD "").length ≤ 2000 ∧
    ((analyze_metrics_run s (.ok ⟨content, []⟩)).metrics_summary.getD "").length ≤ 2000 := by
  refine ⟨rfl, rfl, ?_, ?_⟩
  · show (if content ≠ "" then pySlice 2000 content
      else "Log analysis completed. See trace for details.").length ≤ 2000
    exact length_ite_slice_le content _ (by decide)
  · show (if content ≠ "" then pySlice 2000 content
      else "Metrics analysis completed. See trace for details.").length ≤ 2000
    exact length_ite_slice_le content _ (by decide)
